import Mathlib

/-!
Frame identity resolution of `scorepy` (`src/scorepy/pythonHelpers.cpp`)

A shallow embedding of `scorepy::get_module_name` and `scorepy::get_file_name`.

* The interpreter objects reachable from a frame (the globals dictionary and the
  code object) carry their reference count, so the effect of `Py_INCREF` /
  `Py_DECREF` is explicit state.
* Every reference-count operation and every call of `abspath` is appended to a
  trace, so "released exactly once" and "path resolution is not invoked" are
  statements about the trace.
* The preprocessor constant `PY_VERSION_HEX` is a parameter of both functions.
* `compat::get_string_as_utf_8` (compat.hpp) and `abspath` (pathUtils.hpp) are
  not part of the translated file; both functions take them as parameters.
-/

namespace scorepy

/-! ## Data model -/

/-- An interpreter object as seen through a `PyObject*`: the `Py_None` singleton,
a text object with its content, or an object of any other type. -/
inductive PyObject where
  | none
  | unicode (text : String)
  | other (tag : Nat)
  deriving DecidableEq

/-- The globals dictionary of a frame: its reference count and its entries. -/
structure PyDictObject where
  ob_refcnt : Nat
  items : List (String × PyObject)
  deriving DecidableEq

/-- A code object: its reference count and its `co_filename` field. -/
structure PyCodeObject where
  ob_refcnt : Nat
  co_filename : PyObject
  deriving DecidableEq

/-- A frame with the two objects it points to. -/
structure PyFrameObject where
  f_globals : PyDictObject
  f_code : PyCodeObject
  deriving DecidableEq

/-- Identity of the two reference-counted objects of a frame. -/
inductive ObjId where
  | globals
  | code
  deriving DecidableEq

/-- A typed pointer into the frame: `PyRef PyDictObject` is the `PyObject*` of the
globals dictionary, `PyRef PyCodeObject` the `PyCodeObject*` of the code object. -/
inductive PyRef : Type → Type where
  | globals : PyRef PyDictObject
  | code : PyRef PyCodeObject

/-- Observable effects of a call. -/
inductive Event where
  | incref (o : ObjId)
  | decref (o : ObjId)
  | abspath (path : String)
  deriving DecidableEq

/-- Interpreter state reachable from the frame, together with the effect trace. -/
structure Interp where
  frame : PyFrameObject
  trace : List Event
  deriving DecidableEq

/-! ## Interpreter API -/

/-- Dereference of a typed pointer. -/
def Interp.deref {α : Type} (s : Interp) : PyRef α → α
  | PyRef.globals => s.frame.f_globals
  | PyRef.code => s.frame.f_code

/-- The reference count of an object of the frame. -/
def Interp.refcnt (s : Interp) : ObjId → Nat
  | ObjId.globals => s.frame.f_globals.ob_refcnt
  | ObjId.code => s.frame.f_code.ob_refcnt

/-- `Py_INCREF`: one more strong reference. -/
def Py_INCREF {α : Type} (p : PyRef α) (s : Interp) : Interp :=
  match p with
  | PyRef.globals =>
    { frame := { s.frame with
        f_globals := { s.frame.f_globals with ob_refcnt := s.frame.f_globals.ob_refcnt + 1 } },
      trace := s.trace ++ [Event.incref ObjId.globals] }
  | PyRef.code =>
    { frame := { s.frame with
        f_code := { s.frame.f_code with ob_refcnt := s.frame.f_code.ob_refcnt + 1 } },
      trace := s.trace ++ [Event.incref ObjId.code] }

/-- `Py_DECREF`: one strong reference less. -/
def Py_DECREF {α : Type} (p : PyRef α) (s : Interp) : Interp :=
  match p with
  | PyRef.globals =>
    { frame := { s.frame with
        f_globals := { s.frame.f_globals with ob_refcnt := s.frame.f_globals.ob_refcnt - 1 } },
      trace := s.trace ++ [Event.decref ObjId.globals] }
  | PyRef.code =>
    { frame := { s.frame with
        f_code := { s.frame.f_code with ob_refcnt := s.frame.f_code.ob_refcnt - 1 } },
      trace := s.trace ++ [Event.decref ObjId.code] }

/-- `PyFrame_GetGlobals` (Python 3.11 and later): a new strong reference to the
globals dictionary of the frame. -/
def PyFrame_GetGlobals (s : Interp) : PyRef PyDictObject × Interp :=
  (PyRef.globals, Py_INCREF PyRef.globals s)

/-- `PyFrame_GetCode` (Python 3.11 and later): a new strong reference to the code
object of the frame. -/
def PyFrame_GetCode (s : Interp) : PyRef PyCodeObject × Interp :=
  (PyRef.code, Py_INCREF PyRef.code s)

/-- `PyDict_GetItemString`: a borrowed reference to the value stored under `key`,
or `NULL` (here `none`) when the key is absent. -/
def PyDict_GetItemString (s : Interp) (d : PyRef PyDictObject) (key : String) :
    Option PyObject :=
  (s.deref d).items.lookup key

/-- Modelled from the spec: `compat::get_string_as_utf_8` (compat.hpp) is not
among the translated sources. The specification's text decoder converts an
interpreter-native text object to its UTF-8 text. The specification is silent on
objects that are not text; the model gives the empty view there, and it is only
ever evaluated on text objects below. -/
def compat.get_string_as_utf_8 : PyObject → String
  | PyObject.unicode text => text
  | _ => ""

/-- Modelled from the spec: `abspath` (pathUtils.hpp) is not among the translated
sources. The specification resolves a file name to an absolute path, a relative
one against the working directory `cwd`; an absolute path is kept, and the empty
path cannot be resolved and gives the empty result. -/
def abspath_in (cwd : String) (path : String) : String :=
  if path = "" then ""
  else if path.front = '/' then path
  else cwd ++ "/" ++ path

/-- Record a call of `abspath` in the trace. -/
def Interp.call_abspath (s : Interp) (path : String) : Interp :=
  { s with trace := s.trace ++ [Event.abspath path] }

/-! ## The translated functions -/

/-- `std::string_view get_module_name(PyFrameObject& frame)`, lines 9-38. -/
def get_module_name (PY_VERSION_HEX : Nat) (get_string_as_utf_8 : PyObject → String)
    (s0 : Interp) : String × Interp :=
  -- lines 11-17
  let r1 : Option PyObject × Interp :=
    if PY_VERSION_HEX < 0x030b00a0 then
      (PyDict_GetItemString s0 PyRef.globals "__name__", s0)
    else
      let g := PyFrame_GetGlobals s0
      let module_name := PyDict_GetItemString g.2 g.1 "__name__"
      (module_name, Py_DECREF g.1 g.2)
  -- lines 18-19
  match r1.1 with
  | some module_name => (get_string_as_utf_8 module_name, r1.2)
  | none =>
    -- lines 21-25
    let c : PyRef PyCodeObject × Interp :=
      if PY_VERSION_HEX < 0x030b00a0 then (PyRef.code, r1.2)
      else PyFrame_GetCode r1.2
    -- line 28
    let filename := get_string_as_utf_8 (c.2.deref c.1).co_filename
    -- lines 30-32
    let s3 := if PY_VERSION_HEX ≥ 0x030b00a0 then Py_DECREF c.1 c.2 else c.2
    -- lines 34-37
    if filename.utf8ByteSize > 0 ∧ filename = "<__array_function__ internals>" then
      ("numpy.__array_function__", s3)
    else
      ("unkown", s3)

/-- `std::string get_file_name(PyFrameObject& frame)`, lines 40-57. -/
def get_file_name (PY_VERSION_HEX : Nat) (get_string_as_utf_8 : PyObject → String)
    (abspath : String → String) (s0 : Interp) : String × Interp :=
  -- lines 42-49
  let r1 : PyObject × Interp :=
    if PY_VERSION_HEX < 0x030b00a0 then
      ((s0.deref PyRef.code).co_filename, s0)
    else
      let c := PyFrame_GetCode s0
      let filename := (c.2.deref c.1).co_filename
      (filename, Py_DECREF c.1 c.2)
  -- lines 51-54
  if r1.1 = PyObject.none then
    ("None", r1.2)
  else
    -- lines 55-56
    let arg := get_string_as_utf_8 r1.1
    let full_file_name := abspath arg
    let s2 := r1.2.call_abspath arg
    (if ¬ full_file_name.isEmpty then full_file_name else "ErrorPath", s2)

/-- The events of one call of `get_module_name`, by interpreter version and by
whether the `"__name__"` lookup succeeded. -/
def module_events (v : Nat) (found : Bool) : List Event :=
  if v < 0x030b00a0 then []
  else if found then [Event.incref ObjId.globals, Event.decref ObjId.globals]
  else [Event.incref ObjId.globals, Event.decref ObjId.globals,
        Event.incref ObjId.code, Event.decref ObjId.code]

/-- The events of one call of `get_file_name`, by interpreter version and by the
file name object, for the decoder `d`. -/
def file_events (v : Nat) (d : PyObject → String) (filename : PyObject) : List Event :=
  (if v < 0x030b00a0 then [] else [Event.incref ObjId.code, Event.decref ObjId.code]) ++
  (if filename = PyObject.none then [] else [Event.abspath (d filename)])

/-! ## Concrete inputs -/

/-- A state with an empty trace. -/
def Interp.start (frame : PyFrameObject) : Interp :=
  { frame := frame, trace := [] }

/-- A frame from its globals entries and its code object's file name; each object
is referenced once, by the frame. -/
def mkFrame (items : List (String × PyObject)) (co_filename : PyObject) : PyFrameObject :=
  { f_globals := { ob_refcnt := 1, items := items },
    f_code := { ob_refcnt := 1, co_filename := co_filename } }

/-! ## Shared lemmas -/

theorem lookup_after_incref (s : Interp) (key : String) :
    PyDict_GetItemString (Py_INCREF PyRef.globals s) PyRef.globals key =
      PyDict_GetItemString s PyRef.globals key := rfl

theorem sentinel_test (f : String) :
    (f.utf8ByteSize > 0 ∧ f = "<__array_function__ internals>") ↔
      f = "<__array_function__ internals>" := by
  constructor
  · exact fun h => h.2
  · intro h
    subst h
    exact ⟨by decide, rfl⟩

/-- Both components of the result of `get_module_name`, in closed form. -/
theorem get_module_name_eq (v : Nat) (d : PyObject → String) (s : Interp) :
    get_module_name v d s =
      ((match PyDict_GetItemString s PyRef.globals "__name__" with
        | some m => d m
        | none =>
          if d s.frame.f_code.co_filename = "<__array_function__ internals>" then
            "numpy.__array_function__"
          else "unkown"),
       { frame := s.frame,
         trace := s.trace ++
           module_events v (PyDict_GetItemString s PyRef.globals "__name__").isSome }) := by
  unfold get_module_name module_events
  by_cases hv : v < 0x030b00a0
  · have hv2 : ¬ (v ≥ 0x030b00a0) := by omega
    simp only [hv, hv2, if_true, if_false]
    cases h : PyDict_GetItemString s PyRef.globals "__name__" with
    | some m => simp
    | none =>
      simp only [sentinel_test, Interp.deref]
      split_ifs <;> simp
  · have hv2 : (v ≥ 0x030b00a0) := by omega
    simp only [hv, hv2, if_true, if_false, PyFrame_GetGlobals, lookup_after_incref]
    cases h : PyDict_GetItemString s PyRef.globals "__name__" with
    | some m => simp [Py_DECREF, Py_INCREF]
    | none =>
      have hc : (Py_INCREF PyRef.code (Py_DECREF PyRef.globals
          (Py_INCREF PyRef.globals s))).frame.f_code.co_filename =
          s.frame.f_code.co_filename := rfl
      simp only [sentinel_test, Interp.deref, PyFrame_GetCode, hc, Option.isSome_none,
        Bool.false_eq_true, if_false]
      split_ifs <;> simp [Py_DECREF, Py_INCREF]

/-- Both components of the result of `get_file_name`, in closed form. -/
theorem get_file_name_eq (v : Nat) (d : PyObject → String) (a : String → String)
    (s : Interp) :
    get_file_name v d a s =
      ((if s.frame.f_code.co_filename = PyObject.none then "None"
        else if a (d s.frame.f_code.co_filename) = "" then "ErrorPath"
        else a (d s.frame.f_code.co_filename)),
       { frame := s.frame,
         trace := s.trace ++ file_events v d s.frame.f_code.co_filename }) := by
  unfold get_file_name file_events
  by_cases hv : v < 0x030b00a0
  · simp only [hv, if_true, Interp.deref, String.isEmpty_iff, Interp.call_abspath]
    split_ifs <;> simp
  · have hc : (Py_INCREF PyRef.code s).frame.f_code.co_filename =
        s.frame.f_code.co_filename := rfl
    simp only [hv, if_false, Interp.deref, String.isEmpty_iff, Interp.call_abspath,
      PyFrame_GetCode, hc]
    split_ifs <;> simp [Py_DECREF, Py_INCREF]

/-! ## Module name -/

/-- C1: when the globals mapping of the frame has a `"__name__"` entry that is a
text object with content `text`, `get_module_name` returns the decoding of that
object, whatever the file name of the code object and the interpreter version;
with a decoder that decodes the text object to `text`, the result is `text`. -/
theorem get_module_name_returns_name_entry (v : Nat) (d : PyObject → String)
    (s : Interp) (text : String)
    (h : s.frame.f_globals.items.lookup "__name__" = some (PyObject.unicode text)) :
    (get_module_name v d s).1 = d (PyObject.unicode text) ∧
      (d (PyObject.unicode text) = text → (get_module_name v d s).1 = text) := by
  have hl : PyDict_GetItemString s PyRef.globals "__name__" =
      some (PyObject.unicode text) := h
  have hv : (get_module_name v d s).1 = d (PyObject.unicode text) := by
    rw [get_module_name_eq, hl]
  exact ⟨hv, fun hd => hv.trans hd⟩

theorem get_module_name_returns_name_entry_witness :
    (get_module_name 0x030b00a0 compat.get_string_as_utf_8
        (Interp.start (mkFrame [("__name__", PyObject.unicode "foo.bar")]
          (PyObject.unicode "<__array_function__ internals>")))).1 = "foo.bar" :=
  (get_module_name_returns_name_entry 0x030b00a0 compat.get_string_as_utf_8
    (Interp.start (mkFrame [("__name__", PyObject.unicode "foo.bar")]
      (PyObject.unicode "<__array_function__ internals>"))) "foo.bar" (by decide)).2 rfl

/-- C2: when the globals mapping has no `"__name__"` entry and the file name of
the code object decodes to `"<__array_function__ internals>"`, `get_module_name`
returns `"numpy.__array_function__"`. -/
theorem get_module_name_numpy_special_case (v : Nat) (d : PyObject → String)
    (s : Interp)
    (hname : s.frame.f_globals.items.lookup "__name__" = none)
    (hfile : d s.frame.f_code.co_filename = "<__array_function__ internals>") :
    (get_module_name v d s).1 = "numpy.__array_function__" := by
  have hl : PyDict_GetItemString s PyRef.globals "__name__" = none := hname
  rw [get_module_name_eq, hl]
  simp [hfile]

theorem get_module_name_numpy_special_case_witness :
    (get_module_name 0x030b00a0 compat.get_string_as_utf_8
        (Interp.start (mkFrame [("__doc__", PyObject.none)]
          (PyObject.unicode "<__array_function__ internals>")))).1 =
      "numpy.__array_function__" :=
  get_module_name_numpy_special_case 0x030b00a0 compat.get_string_as_utf_8
    (Interp.start (mkFrame [("__doc__", PyObject.none)]
      (PyObject.unicode "<__array_function__ internals>"))) (by decide) (by decide)

/-- C3: for a frame without a `"__name__"` entry whose code object has the file
name `"foo.py"`, `get_module_name` returns the literal `"unkown"` of line 37 on
every interpreter version, which is not the literal `"unknown"`. -/
theorem get_module_name_fallback_literal (v : Nat) :
    (get_module_name v compat.get_string_as_utf_8
        (Interp.start (mkFrame [] (PyObject.unicode "foo.py")))).1 = "unkown" ∧
    (get_module_name v compat.get_string_as_utf_8
        (Interp.start (mkFrame [] (PyObject.unicode "foo.py")))).1 ≠ "unknown" := by
  have hl : PyDict_GetItemString (Interp.start (mkFrame [] (PyObject.unicode "foo.py")))
      PyRef.globals "__name__" = none := rfl
  have hv : (get_module_name v compat.get_string_as_utf_8
      (Interp.start (mkFrame [] (PyObject.unicode "foo.py")))).1 = "unkown" := by
    rw [get_module_name_eq, hl]
    show (if compat.get_string_as_utf_8 (PyObject.unicode "foo.py") =
        "<__array_function__ internals>" then "numpy.__array_function__" else "unkown") =
      "unkown"
    decide
  refine ⟨hv, ?_⟩
  rw [hv]
  decide

/-- C7, as the code has it: a frame whose `"__name__"` entry is the empty text
makes `get_module_name` return the empty text. -/
theorem get_module_name_empty_name_entry :
    (get_module_name 0x030b00a0 compat.get_string_as_utf_8
        (Interp.start (mkFrame [("__name__", PyObject.unicode "")]
          (PyObject.unicode "mod.py")))).1 = "" := by
  decide

/-- C7, amended: `get_module_name` is total, and its result is non-empty exactly
when the globals mapping has no `"__name__"` entry or that entry decodes to a
non-empty text. -/
theorem get_module_name_nonempty_iff (v : Nat) (d : PyObject → String) (s : Interp) :
    (get_module_name v d s).1 ≠ "" ↔
      ∀ m, s.frame.f_globals.items.lookup "__name__" = some m → d m ≠ "" := by
  rw [get_module_name_eq]
  cases h : PyDict_GetItemString s PyRef.globals "__name__" with
  | some m =>
    have h2 : s.frame.f_globals.items.lookup "__name__" = some m := h
    simp [h2]
  | none =>
    have h2 : s.frame.f_globals.items.lookup "__name__" = none := h
    simp only [h2]
    constructor
    · intro _ m hm
      cases hm
    · intro _
      split_ifs <;> decide

/-! ## File name -/

/-- C4: when the file name of the code object is `Py_None`, `get_file_name`
returns `"None"`, and the call adds nothing but the reference-count events of
its version to the trace: `abspath` is not called. -/
theorem get_file_name_none_sentinel (v : Nat) (d : PyObject → String)
    (a : String → String) (s : Interp)
    (h : s.frame.f_code.co_filename = PyObject.none) :
    (get_file_name v d a s).1 = "None" ∧
      (get_file_name v d a s).2.trace =
        s.trace ++ (if v < 0x030b00a0 then []
          else [Event.incref ObjId.code, Event.decref ObjId.code]) ∧
      ∀ path, Event.abspath path ∈ (get_file_name v d a s).2.trace →
        Event.abspath path ∈ s.trace := by
  have ht : (get_file_name v d a s).2.trace =
      s.trace ++ (if v < 0x030b00a0 then []
        else [Event.incref ObjId.code, Event.decref ObjId.code]) := by
    rw [get_file_name_eq]
    simp [file_events, h]
  refine ⟨?_, ht, ?_⟩
  · rw [get_file_name_eq]
    simp [h]
  · intro path hp
    rw [ht] at hp
    split_ifs at hp <;> simpa using hp

theorem get_file_name_none_sentinel_witness :
    (get_file_name 0x030b00a0 compat.get_string_as_utf_8 (abspath_in "/work")
        (Interp.start (mkFrame [] PyObject.none))).1 = "None" ∧
      (get_file_name 0x030b00a0 compat.get_string_as_utf_8 (abspath_in "/work")
        (Interp.start (mkFrame [] PyObject.none))).2.trace =
        (Interp.start (mkFrame [] PyObject.none)).trace ++
          (if 0x030b00a0 < 0x030b00a0 then []
            else [Event.incref ObjId.code, Event.decref ObjId.code]) ∧
      ∀ path, Event.abspath path ∈
          (get_file_name 0x030b00a0 compat.get_string_as_utf_8 (abspath_in "/work")
            (Interp.start (mkFrame [] PyObject.none))).2.trace →
        Event.abspath path ∈ (Interp.start (mkFrame [] PyObject.none)).trace :=
  get_file_name_none_sentinel 0x030b00a0 compat.get_string_as_utf_8 (abspath_in "/work")
    (Interp.start (mkFrame [] PyObject.none)) rfl

/-- C5: when the file name of the code object is not `Py_None` and `abspath` of
the decoded file name is the empty string, `get_file_name` returns `"ErrorPath"`,
which is not the empty string. -/
theorem get_file_name_error_path (v : Nat) (d : PyObject → String)
    (a : String → String) (s : Interp)
    (hnone : s.frame.f_code.co_filename ≠ PyObject.none)
    (hempty : a (d s.frame.f_code.co_filename) = "") :
    (get_file_name v d a s).1 = "ErrorPath" ∧ (get_file_name v d a s).1 ≠ "" := by
  have hv : (get_file_name v d a s).1 = "ErrorPath" := by
    rw [get_file_name_eq]
    simp [hnone, hempty]
  refine ⟨hv, ?_⟩
  rw [hv]
  decide

theorem get_file_name_error_path_witness :
    (get_file_name 0x030b00a0 compat.get_string_as_utf_8 (abspath_in "/work")
        (Interp.start (mkFrame [] (PyObject.unicode "")))).1 = "ErrorPath" ∧
      (get_file_name 0x030b00a0 compat.get_string_as_utf_8 (abspath_in "/work")
        (Interp.start (mkFrame [] (PyObject.unicode "")))).1 ≠ "" :=
  get_file_name_error_path 0x030b00a0 compat.get_string_as_utf_8 (abspath_in "/work")
    (Interp.start (mkFrame [] (PyObject.unicode ""))) (by decide) (by decide)

/-- C6: when the file name of the code object is a text object and `abspath` of
its decoding is not empty, `get_file_name` returns that `abspath` result
unchanged; in particular, when the file name `"a/b.py"` decodes to itself and
`abspath` resolves it against the working directory `/work`, the result is
`"/work/a/b.py"`. -/
theorem get_file_name_resolved_path (v : Nat) (d : PyObject → String)
    (a : String → String) (s : Interp) (text : String)
    (htext : s.frame.f_code.co_filename = PyObject.unicode text) :
    (a (d (PyObject.unicode text)) ≠ "" →
        (get_file_name v d a s).1 = a (d (PyObject.unicode text))) ∧
      (text = "a/b.py" → d (PyObject.unicode "a/b.py") = "a/b.py" →
        a "a/b.py" = "/work/a/b.py" →
        (get_file_name v d a s).1 = "/work/a/b.py") := by
  have hgen : a (d (PyObject.unicode text)) ≠ "" →
      (get_file_name v d a s).1 = a (d (PyObject.unicode text)) := by
    intro hne
    rw [get_file_name_eq]
    simp [htext, hne]
  refine ⟨hgen, ?_⟩
  intro ht hd ha
  subst ht
  have hr : a (d (PyObject.unicode "a/b.py")) = "/work/a/b.py" := by rw [hd, ha]
  rw [hgen (by rw [hr]; decide), hr]

theorem get_file_name_resolved_path_witness :
    (get_file_name 0x030b00a0 compat.get_string_as_utf_8 (abspath_in "/work")
        (Interp.start (mkFrame [] (PyObject.unicode "a/b.py")))).1 =
      abspath_in "/work" (compat.get_string_as_utf_8 (PyObject.unicode "a/b.py")) ∧
    (get_file_name 0x030b00a0 compat.get_string_as_utf_8 (abspath_in "/work")
        (Interp.start (mkFrame [] (PyObject.unicode "a/b.py")))).1 = "/work/a/b.py" :=
  ⟨(get_file_name_resolved_path 0x030b00a0 compat.get_string_as_utf_8 (abspath_in "/work")
      (Interp.start (mkFrame [] (PyObject.unicode "a/b.py"))) "a/b.py" rfl).1 (by decide),
   (get_file_name_resolved_path 0x030b00a0 compat.get_string_as_utf_8 (abspath_in "/work")
      (Interp.start (mkFrame [] (PyObject.unicode "a/b.py"))) "a/b.py" rfl).2 rfl rfl
      (by decide)⟩

/-- C8: for every interpreter version, text decoder, `abspath` and state,
`get_file_name` is total and returns `"None"`, `"ErrorPath"` or a non-empty
`abspath` result; its result is never the empty string. -/
theorem get_file_name_nonempty (v : Nat) (d : PyObject → String)
    (a : String → String) (s : Interp) :
    (get_file_name v d a s).1 ≠ "" ∧
      ((s.frame.f_code.co_filename = PyObject.none ∧ (get_file_name v d a s).1 = "None") ∨
       (s.frame.f_code.co_filename ≠ PyObject.none ∧
          a (d s.frame.f_code.co_filename) = "" ∧
          (get_file_name v d a s).1 = "ErrorPath") ∨
       (s.frame.f_code.co_filename ≠ PyObject.none ∧
          a (d s.frame.f_code.co_filename) ≠ "" ∧
          (get_file_name v d a s).1 = a (d s.frame.f_code.co_filename))) := by
  rw [get_file_name_eq]
  by_cases hn : s.frame.f_code.co_filename = PyObject.none
  · simp only [hn, if_true]
    exact ⟨by decide, Or.inl ⟨trivial, trivial⟩⟩
  · by_cases he : a (d s.frame.f_code.co_filename) = ""
    · simp only [hn, he, if_true, if_false]
      exact ⟨by decide, Or.inr (Or.inl ⟨hn, trivial, trivial⟩)⟩
    · simp only [hn, he, if_false]
      exact ⟨he, Or.inr (Or.inr ⟨hn, he, trivial⟩)⟩

/-! ## Reference counts and determinism -/

/-- C9: after `get_module_name` and after `get_file_name` the frame, reference
counts included, is the one before the call. On Python 3.11 and later the events
of `get_module_name` are one `incref`/`decref` pair for the globals dictionary,
followed by one pair for the code object when the `"__name__"` lookup fails, and
those of `get_file_name` are one pair for the code object; before 3.11 there is
no reference-count event at all. -/
theorem reference_counts_balanced (v : Nat) (d : PyObject → String)
    (a : String → String) (s : Interp) :
    (get_module_name v d s).2.frame = s.frame ∧
    (get_module_name v d s).2.trace = s.trace ++
      (if v < 0x030b00a0 then []
       else if (s.frame.f_globals.items.lookup "__name__").isSome then
         [Event.incref ObjId.globals, Event.decref ObjId.globals]
       else
         [Event.incref ObjId.globals, Event.decref ObjId.globals,
          Event.incref ObjId.code, Event.decref ObjId.code]) ∧
    (get_file_name v d a s).2.frame = s.frame ∧
    (get_file_name v d a s).2.trace = s.trace ++
      ((if v < 0x030b00a0 then []
        else [Event.incref ObjId.code, Event.decref ObjId.code]) ++
       (if s.frame.f_code.co_filename = PyObject.none then []
        else [Event.abspath (d s.frame.f_code.co_filename)])) ∧
    ∀ o, (get_module_name v d s).2.refcnt o = s.refcnt o ∧
      (get_file_name v d a s).2.refcnt o = s.refcnt o := by
  rw [get_module_name_eq, get_file_name_eq]
  refine ⟨rfl, rfl, rfl, rfl, ?_⟩
  intro o
  cases o <;> exact ⟨rfl, rfl⟩

/-- C10: a second call of `get_module_name`, or of `get_file_name` with the same
`abspath`, on the state left by the first call returns what the first call
returned, and neither call changes the globals entries or the file name of the
code object. -/
theorem resolvers_idempotent (v : Nat) (d : PyObject → String)
    (a : String → String) (s : Interp) :
    (get_module_name v d (get_module_name v d s).2).1 = (get_module_name v d s).1 ∧
    (get_file_name v d a (get_file_name v d a s).2).1 = (get_file_name v d a s).1 ∧
    (get_module_name v d s).2.frame.f_globals.items = s.frame.f_globals.items ∧
    (get_module_name v d s).2.frame.f_code.co_filename = s.frame.f_code.co_filename ∧
    (get_file_name v d a s).2.frame.f_globals.items = s.frame.f_globals.items ∧
    (get_file_name v d a s).2.frame.f_code.co_filename = s.frame.f_code.co_filename := by
  simp only [get_module_name_eq, get_file_name_eq]
  refine ⟨?_, ?_, ?_, ?_, ?_, ?_⟩ <;> trivial

end scorepy
